import Mathlib

/-!
Shallow embedding of the annotation-duplication engine of
`packages/plugin-annotation/src/lib/utils/duplicate-to-all-pages.ts`.

Coordinates are modelled as rationals; the ambient non-determinism of the
engine (the `uuidV4` identifier generator and the `new Date()` timestamp)
is passed in explicitly (`uuid : Nat → String`, `now : Nat`); the single
`throw` of the engine is modelled with `Except`.
-/

namespace EmbedPdf

/-- Source `Position` from `@embedpdf/models`: a point in page space. -/
structure Position where
  x : ℚ
  y : ℚ
deriving DecidableEq, Repr

/-- Source `Size` from `@embedpdf/models`. -/
structure Size where
  width : ℚ
  height : ℚ
deriving DecidableEq, Repr

/-- Source `Rect` from `@embedpdf/models`: origin plus size. -/
structure Rect where
  origin : Position
  size : Size
deriving DecidableEq, Repr

/-- Source `Rotation` from `@embedpdf/models`. -/
inductive Rotation
  | degree0
  | degree90
  | degree180
  | degree270
deriving DecidableEq, Repr

/-- Source `PdfPageObject` from `@embedpdf/models`. -/
structure PdfPageObject where
  index : Nat
  size : Size
  rotation : Rotation
deriving DecidableEq, Repr

/-- The geometry payload of the tagged union `PdfAnnotationObject`:
one variant per geometry kind the transform dispatches on
(`INK`, `POLYGON`, `POLYLINE`, `LINE`, and the default rect-only case). -/
inductive PdfAnnoGeometry
  | simple
  | ink (inkList : List (List Position))
  | polygon (vertices : List Position)
  | polyline (vertices : List Position)
  | line (startPoint endPoint : Position)
deriving DecidableEq, Repr

/-- Source `PdfAnnotationObject`: common fields (`id`, `pageIndex`, `rect`,
`created`) plus the kind-specific geometry and the passthrough styling
fields the engine never interprets. -/
structure PdfAnnoObject where
  id : String
  pageIndex : Nat
  geometry : PdfAnnoGeometry
  rect : Rect
  created : Nat
  color : String
  strokeColor : String
  strokeWidth : ℚ
  strokeStyle : Nat
  opacity : ℚ
  flags : List String
  icon : String
deriving DecidableEq, Repr

/-- The single error kind of the engine: `throw new Error('Source page not
found for annotation on page ...')`, carrying the offending page index. -/
inductive DuplicateError
  | sourcePageNotFound (pageIndex : Nat)
deriving DecidableEq, Repr

/-- Source `DuplicateAnnotationResult` from the source. -/
structure DuplicateAnnotationResult where
  annotations : List PdfAnnoObject
  clippedPages : List Nat
deriving DecidableEq, Repr

/-- Source `getRotatedPageSize(page)`: swap width and height when the rotation is
90 or 270 degrees. -/
def getRotatedPageSize (page : PdfPageObject) : Size :=
  let isRotated90or270 :=
    page.rotation = Rotation.degree90 ∨ page.rotation = Rotation.degree270
  if isRotated90or270 then
    { width := page.size.height, height := page.size.width }
  else
    { width := page.size.width, height := page.size.height }

/-- Source `clamp(value, min, max) = Math.max(min, Math.min(max, value))`. -/
def clamp (value lo hi : ℚ) : ℚ :=
  max lo (min hi value)

/-- Source `clipRectToPageBounds(rect, pageSize)`: clamp the origin into the page,
recompute the width and height available from the clamped origin, take the
minimum with the original size, and floor both dimensions at 0.
`wasClipped` is true iff the clamped origin or either (pre-floor) dimension
differs from the original. -/
def clipRectToPageBounds (rect : Rect) (pageSize : Size) : Rect × Bool :=
  let maxX := pageSize.width
  let maxY := pageSize.height
  let clippedX := clamp rect.origin.x 0 maxX
  let clippedY := clamp rect.origin.y 0 maxY
  let maxWidth := maxX - clippedX
  let maxHeight := maxY - clippedY
  let clippedWidth := min rect.size.width maxWidth
  let clippedHeight := min rect.size.height maxHeight
  let clippedRect : Rect :=
    { origin := { x := clippedX, y := clippedY }
      size := { width := max 0 clippedWidth, height := max 0 clippedHeight } }
  let wasClipped :=
    decide (clippedX ≠ rect.origin.x) || decide (clippedY ≠ rect.origin.y) ||
    decide (clippedWidth ≠ rect.size.width) || decide (clippedHeight ≠ rect.size.height)
  (clippedRect, wasClipped)

/-- Source `clipPositionToPageBounds(position, pageSize)`: clamp each coordinate
independently into the page. -/
def clipPositionToPageBounds (position : Position) (pageSize : Size) :
    Position × Bool :=
  let clippedX := clamp position.x 0 pageSize.width
  let clippedY := clamp position.y 0 pageSize.height
  ({ x := clippedX, y := clippedY },
   decide (clippedX ≠ position.x) || decide (clippedY ≠ position.y))

/-- Source `transformRectForTargetPage(rect, _sourcePage, targetPage)`: the source
page is ignored; the rect is clipped against the target page's rotated
size. -/
def transformRectForTargetPage (rect : Rect) (_sourcePage : PdfPageObject)
    (targetPage : PdfPageObject) : Rect × Bool :=
  let targetSize := getRotatedPageSize targetPage
  clipRectToPageBounds rect targetSize

/-- Source `transformPositionForTargetPage(position, _sourcePage, targetPage)`. -/
def transformPositionForTargetPage (position : Position)
    (_sourcePage : PdfPageObject) (targetPage : PdfPageObject) :
    Position × Bool :=
  let targetSize := getRotatedPageSize targetPage
  clipPositionToPageBounds position targetSize

/-- Source `transformInkAnnotation`: clip every point of every stroke and the
rect; the clipped flag is the OR over all points and the rect. -/
def transformInkAnno (a : PdfAnnoObject) (inkList : List (List Position))
    (sourcePage targetPage : PdfPageObject) : PdfAnnoObject × Bool :=
  let targetSize := getRotatedPageSize targetPage
  let transformedInkList :=
    inkList.map fun stroke =>
      stroke.map fun point => (clipPositionToPageBounds point targetSize).1
  let pointsClipped :=
    inkList.any fun stroke =>
      stroke.any fun point => (clipPositionToPageBounds point targetSize).2
  let rectResult := transformRectForTargetPage a.rect sourcePage targetPage
  ({ a with geometry := PdfAnnoGeometry.ink transformedInkList, rect := rectResult.1 },
   pointsClipped || rectResult.2)

/-- Source `transformPolygonAnnotation`: clip every vertex and the rect. -/
def transformPolygonAnno (a : PdfAnnoObject) (vertices : List Position)
    (sourcePage targetPage : PdfPageObject) : PdfAnnoObject × Bool :=
  let transformedVertices :=
    vertices.map fun v => (transformPositionForTargetPage v sourcePage targetPage).1
  let verticesClipped :=
    vertices.any fun v => (transformPositionForTargetPage v sourcePage targetPage).2
  let rectResult := transformRectForTargetPage a.rect sourcePage targetPage
  ({ a with geometry := PdfAnnoGeometry.polygon transformedVertices, rect := rectResult.1 },
   verticesClipped || rectResult.2)

/-- Source `transformPolylineAnnotation`: identical to the polygon case. -/
def transformPolylineAnno (a : PdfAnnoObject) (vertices : List Position)
    (sourcePage targetPage : PdfPageObject) : PdfAnnoObject × Bool :=
  let transformedVertices :=
    vertices.map fun v => (transformPositionForTargetPage v sourcePage targetPage).1
  let verticesClipped :=
    vertices.any fun v => (transformPositionForTargetPage v sourcePage targetPage).2
  let rectResult := transformRectForTargetPage a.rect sourcePage targetPage
  ({ a with geometry := PdfAnnoGeometry.polyline transformedVertices, rect := rectResult.1 },
   verticesClipped || rectResult.2)

/-- Source `transformLineAnnotation`: clip the two endpoints and the rect. -/
def transformLineAnno (a : PdfAnnoObject) (startPoint endPoint : Position)
    (sourcePage targetPage : PdfPageObject) : PdfAnnoObject × Bool :=
  let startResult := transformPositionForTargetPage startPoint sourcePage targetPage
  let endResult := transformPositionForTargetPage endPoint sourcePage targetPage
  let rectResult := transformRectForTargetPage a.rect sourcePage targetPage
  ({ a with geometry := PdfAnnoGeometry.line startResult.1 endResult.1,
            rect := rectResult.1 },
   (startResult.2 || endResult.2) || rectResult.2)

/-- Source `transformAnnotationForTargetPage`: dispatch on the geometry kind; the
default case clips only the rect. -/
def transformAnnoForTargetPage (a : PdfAnnoObject)
    (sourcePage targetPage : PdfPageObject) : PdfAnnoObject × Bool :=
  match a.geometry with
  | PdfAnnoGeometry.ink inkList =>
      transformInkAnno a inkList sourcePage targetPage
  | PdfAnnoGeometry.polygon vs =>
      transformPolygonAnno a vs sourcePage targetPage
  | PdfAnnoGeometry.polyline vs =>
      transformPolylineAnno a vs sourcePage targetPage
  | PdfAnnoGeometry.line s e =>
      transformLineAnno a s e sourcePage targetPage
  | PdfAnnoGeometry.simple =>
      let rectResult := transformRectForTargetPage a.rect sourcePage targetPage
      ({ a with rect := rectResult.1 }, rectResult.2)

/-- Source `createDuplicateAnnotation`: transform for the target page, then
overwrite `id` with a fresh identifier, `pageIndex` with the target page's
index and `created` with the current timestamp. -/
def createDuplicateAnno (newId : String) (now : Nat) (sourceAnno : PdfAnnoObject)
    (sourcePage targetPage : PdfPageObject) : PdfAnnoObject × Bool :=
  let r := transformAnnoForTargetPage sourceAnno sourcePage targetPage
  ({ r.1 with id := newId, pageIndex := targetPage.index, created := now }, r.2)

/-- The `for (const targetPage of pages)` loop of
`generateDuplicateAnnotations`, with `k` the number of `uuidV4` calls made
so far: skip the source page unless included, duplicate onto every other
page, and record the page index when the duplicate was clipped. -/
def processPages (uuid : Nat → String) (now : Nat) (sourceAnno : PdfAnnoObject)
    (sourcePage : PdfPageObject) (includeSourcePage : Bool) :
    List PdfPageObject → Nat → List PdfAnnoObject × List Nat
  | [], _ => ([], [])
  | targetPage :: rest, k =>
      if !includeSourcePage && targetPage.index == sourceAnno.pageIndex then
        processPages uuid now sourceAnno sourcePage includeSourcePage rest k
      else
        let r := createDuplicateAnno (uuid k) now sourceAnno sourcePage targetPage
        let tail := processPages uuid now sourceAnno sourcePage includeSourcePage rest (k + 1)
        (r.1 :: tail.1, if r.2 then targetPage.index :: tail.2 else tail.2)

/-- Source `generateDuplicateAnnotations(sourceAnnotation, pages, options)`: find
the source page (throwing `SourcePageNotFound` when absent) and process
every page. -/
def generateDuplicateAnnotations (uuid : Nat → String) (now : Nat)
    (sourceAnno : PdfAnnoObject) (pages : List PdfPageObject)
    (includeSourcePage : Bool) : Except DuplicateError DuplicateAnnotationResult :=
  match pages.find? (fun p => p.index == sourceAnno.pageIndex) with
  | none => Except.error (DuplicateError.sourcePageNotFound sourceAnno.pageIndex)
  | some sourcePage =>
      let r := processPages uuid now sourceAnno sourcePage includeSourcePage pages 0
      Except.ok { annotations := r.1, clippedPages := r.2 }

/-- The pages the loop actually duplicates onto, in input order. -/
def eligiblePages (sourceAnno : PdfAnnoObject) (includeSourcePage : Bool)
    (pages : List PdfPageObject) : List PdfPageObject :=
  pages.filter fun p => !(!includeSourcePage && p.index == sourceAnno.pageIndex)

/-- A position lies (edge-inclusively) inside a size. -/
def posWithin (p : Position) (s : Size) : Prop :=
  0 ≤ p.x ∧ p.x ≤ s.width ∧ 0 ≤ p.y ∧ p.y ≤ s.height

/-- A rect lies inside a size: nonnegative origin and dimensions, far edge
within the bounds. -/
def rectWithin (r : Rect) (s : Size) : Prop :=
  0 ≤ r.origin.x ∧ 0 ≤ r.origin.y ∧
  0 ≤ r.size.width ∧ 0 ≤ r.size.height ∧
  r.origin.x + r.size.width ≤ s.width ∧ r.origin.y + r.size.height ≤ s.height

/-- All point data of a geometry payload lies inside a size. -/
def geomWithin (g : PdfAnnoGeometry) (s : Size) : Prop :=
  match g with
  | PdfAnnoGeometry.simple => True
  | PdfAnnoGeometry.ink inkList => ∀ stroke ∈ inkList, ∀ p ∈ stroke, posWithin p s
  | PdfAnnoGeometry.polygon vs => ∀ p ∈ vs, posWithin p s
  | PdfAnnoGeometry.polyline vs => ∀ p ∈ vs, posWithin p s
  | PdfAnnoGeometry.line a b => posWithin a s ∧ posWithin b s

instance (p : Position) (s : Size) : Decidable (posWithin p s) := by
  unfold posWithin; infer_instance

instance (r : Rect) (s : Size) : Decidable (rectWithin r s) := by
  unfold rectWithin; infer_instance

instance (g : PdfAnnoGeometry) (s : Size) : Decidable (geomWithin g s) := by
  unfold geomWithin; cases g <;> infer_instance

/-- The styling fields the engine never interprets agree. -/
def sameStyle (a b : PdfAnnoObject) : Prop :=
  a.color = b.color ∧ a.strokeColor = b.strokeColor ∧
  a.strokeWidth = b.strokeWidth ∧ a.strokeStyle = b.strokeStyle ∧
  a.opacity = b.opacity ∧ a.flags = b.flags ∧ a.icon = b.icon

instance (a b : PdfAnnoObject) : Decidable (sameStyle a b) := by
  unfold sameStyle; infer_instance

/-- A deterministic stand-in for the identity generator, used by the
concrete instantiations below: the i-th draw is the string of i+1 letters
a, so distinct draws differ in length. -/
def wuuid : Nat → String :=
  fun n => String.mk (List.replicate (n + 1) 'a')

def wPage0 : PdfPageObject :=
  { index := 0, size := { width := 612, height := 792 }, rotation := Rotation.degree0 }

def wPage1 : PdfPageObject :=
  { index := 1, size := { width := 612, height := 792 }, rotation := Rotation.degree0 }

def wSmallPage1 : PdfPageObject :=
  { index := 1, size := { width := 300, height := 400 }, rotation := Rotation.degree0 }

def wTinyPage0 : PdfPageObject :=
  { index := 0, size := { width := 10, height := 10 }, rotation := Rotation.degree0 }

def wRotPage2 : PdfPageObject :=
  { index := 2, size := { width := 612, height := 792 }, rotation := Rotation.degree90 }

/-- A square-like annotation sitting well inside a letter-sized page. -/
def wAnno : PdfAnnoObject :=
  { id := "", pageIndex := 0, geometry := PdfAnnoGeometry.simple,
    rect := { origin := { x := 100, y := 100 }, size := { width := 50, height := 50 } },
    created := 0, color := "#FF0000", strokeColor := "#000000", strokeWidth := 1,
    strokeStyle := 0, opacity := 1, flags := ["print"], icon := "" }

/-- An annotation overflowing a 300 by 400 page. -/
def wOverflowAnno : PdfAnnoObject :=
  { id := "", pageIndex := 0, geometry := PdfAnnoGeometry.simple,
    rect := { origin := { x := 400, y := 500 }, size := { width := 100, height := 100 } },
    created := 0, color := "#FF0000", strokeColor := "#000000", strokeWidth := 1,
    strokeStyle := 0, opacity := 1, flags := ["print"], icon := "" }

/-- An annotation whose rect starts left of the page. -/
def wBadAnno : PdfAnnoObject :=
  { id := "", pageIndex := 0, geometry := PdfAnnoGeometry.simple,
    rect := { origin := { x := -10, y := 0 }, size := { width := 5, height := 5 } },
    created := 0, color := "#FF0000", strokeColor := "#000000", strokeWidth := 1,
    strokeStyle := 0, opacity := 1, flags := ["print"], icon := "" }

/-- The result of duplicating `wAnno` from page 0 onto page 1 of two
letter-sized pages with the deterministic generator. -/
def wRes01 : DuplicateAnnotationResult :=
  { annotations :=
      [{ id := "a", pageIndex := 1, geometry := PdfAnnoGeometry.simple,
         rect := { origin := { x := 100, y := 100 }, size := { width := 50, height := 50 } },
         created := 0, color := "#FF0000", strokeColor := "#000000", strokeWidth := 1,
         strokeStyle := 0, opacity := 1, flags := ["print"], icon := "" }],
    clippedPages := [] }

/-- The result of duplicating `wOverflowAnno` onto the smaller page 1:
the rect collapses to a zero-size rect at the page corner and page 1 is
reported clipped. -/
def wResClip : DuplicateAnnotationResult :=
  { annotations :=
      [{ id := "a", pageIndex := 1, geometry := PdfAnnoGeometry.simple,
         rect := { origin := { x := 300, y := 400 }, size := { width := 0, height := 0 } },
         created := 0, color := "#FF0000", strokeColor := "#000000", strokeWidth := 1,
         strokeStyle := 0, opacity := 1, flags := ["print"], icon := "" }],
    clippedPages := [1] }

/-- The result of duplicating `wAnno` onto both letter-sized pages with
the source page included. -/
def wResInc : DuplicateAnnotationResult :=
  { annotations := [{ wAnno with id := "a", pageIndex := 0 },
                    { wAnno with id := "aa", pageIndex := 1 }],
    clippedPages := [] }

/-- The same call after shrinking the source page to 10 by 10: the copy
placed back onto the source page collapses and page 0 gets reported
clipped. -/
def wResIncTiny : DuplicateAnnotationResult :=
  { annotations :=
      [{ wAnno with
          id := "a"
          pageIndex := 0
          rect := { origin := { x := 10, y := 10 }, size := { width := 0, height := 0 } } },
       { wAnno with id := "aa", pageIndex := 1 }],
    clippedPages := [0] }

/-- An ink annotation contained in a letter-sized page. -/
def wInkAnno : PdfAnnoObject :=
  { id := "", pageIndex := 0,
    geometry := PdfAnnoGeometry.ink [[{ x := 110, y := 110 }, { x := 120, y := 120 }]],
    rect := { origin := { x := 100, y := 100 }, size := { width := 40, height := 40 } },
    created := 0, color := "#0000FF", strokeColor := "#000000", strokeWidth := 2,
    strokeStyle := 0, opacity := 1, flags := [], icon := "" }

theorem clamp_nonneg (v hi : ℚ) : 0 ≤ clamp v 0 hi :=
  le_max_left 0 _

theorem clamp_le_hi (v : ℚ) {hi : ℚ} (h : 0 ≤ hi) : clamp v 0 hi ≤ hi :=
  max_le h (min_le_left _ _)

theorem clamp_eq_self {v hi : ℚ} (h0 : 0 ≤ v) (h1 : v ≤ hi) : clamp v 0 hi = v := by
  unfold clamp
  rw [min_eq_right h1, max_eq_right h0]

theorem clipPosition_fst (p : Position) (s : Size) :
    (clipPositionToPageBounds p s).1 =
      { x := clamp p.x 0 s.width, y := clamp p.y 0 s.height } :=
  rfl

theorem clipPosition_within {s : Size} (hw : 0 ≤ s.width) (hh : 0 ≤ s.height)
    (p : Position) : posWithin (clipPositionToPageBounds p s).1 s :=
  ⟨clamp_nonneg _ _, clamp_le_hi _ hw, clamp_nonneg _ _, clamp_le_hi _ hh⟩

theorem clipPosition_of_within {p : Position} {s : Size} (h : posWithin p s) :
    clipPositionToPageBounds p s = (p, false) := by
  obtain ⟨h1, h2, h3, h4⟩ := h
  simp only [clipPositionToPageBounds, clamp_eq_self h1 h2, clamp_eq_self h3 h4]
  simp

theorem clipPosition_snd_iff (p : Position) (s : Size) :
    ((clipPositionToPageBounds p s).2 = true) ↔ (clipPositionToPageBounds p s).1 ≠ p := by
  obtain ⟨px, py⟩ := p
  simp only [clipPositionToPageBounds, ne_eq, Position.mk.injEq, Bool.or_eq_true,
    decide_eq_true_eq]
  tauto

theorem clipRect_def (r : Rect) (s : Size) :
    clipRectToPageBounds r s =
      ({ origin := { x := clamp r.origin.x 0 s.width, y := clamp r.origin.y 0 s.height }
         size := { width := max 0 (min r.size.width (s.width - clamp r.origin.x 0 s.width))
                   height := max 0 (min r.size.height (s.height - clamp r.origin.y 0 s.height)) } },
       decide (clamp r.origin.x 0 s.width ≠ r.origin.x) ||
       decide (clamp r.origin.y 0 s.height ≠ r.origin.y) ||
       decide (min r.size.width (s.width - clamp r.origin.x 0 s.width) ≠ r.size.width) ||
       decide (min r.size.height (s.height - clamp r.origin.y 0 s.height) ≠ r.size.height)) :=
  rfl

theorem clipRect_within {s : Size} (hw : 0 ≤ s.width) (hh : 0 ≤ s.height)
    (r : Rect) : rectWithin (clipRectToPageBounds r s).1 s := by
  rw [clipRect_def]
  have hcx : clamp r.origin.x 0 s.width ≤ s.width := clamp_le_hi _ hw
  have hcy : clamp r.origin.y 0 s.height ≤ s.height := clamp_le_hi _ hh
  have hcx0 : 0 ≤ clamp r.origin.x 0 s.width := clamp_nonneg _ _
  have hcy0 : 0 ≤ clamp r.origin.y 0 s.height := clamp_nonneg _ _
  have hwle : max 0 (min r.size.width (s.width - clamp r.origin.x 0 s.width)) ≤
      s.width - clamp r.origin.x 0 s.width :=
    max_le (by linarith) (min_le_right _ _)
  have hhle : max 0 (min r.size.height (s.height - clamp r.origin.y 0 s.height)) ≤
      s.height - clamp r.origin.y 0 s.height :=
    max_le (by linarith) (min_le_right _ _)
  refine ⟨hcx0, hcy0, le_max_left _ _, le_max_left _ _, by linarith, by linarith⟩

theorem clipRect_of_within {r : Rect} {s : Size} (h : rectWithin r s) :
    clipRectToPageBounds r s = (r, false) := by
  obtain ⟨⟨x, y⟩, ⟨w, h'⟩⟩ := r
  obtain ⟨h1, h2, h3, h4, h5, h6⟩ := h
  simp only at h1 h2 h3 h4 h5 h6
  rw [clipRect_def]
  simp only
  rw [clamp_eq_self h1 (by linarith), clamp_eq_self h2 (by linarith)]
  rw [min_eq_left (by linarith), min_eq_left (by linarith)]
  rw [max_eq_right h3, max_eq_right h4]
  simp

theorem clipRect_snd_iff {r : Rect} {s : Size}
    (hW : 0 ≤ s.width) (hH : 0 ≤ s.height)
    (hw : 0 ≤ r.size.width) (hh : 0 ≤ r.size.height) :
    ((clipRectToPageBounds r s).2 = true) ↔ (clipRectToPageBounds r s).1 ≠ r := by
  obtain ⟨⟨x, y⟩, ⟨w, h'⟩⟩ := r
  simp only at hw hh
  have hcx : clamp x 0 s.width ≤ s.width := clamp_le_hi _ hW
  have hcy : clamp y 0 s.height ≤ s.height := clamp_le_hi _ hH
  have hmw : 0 ≤ min w (s.width - clamp x 0 s.width) := le_min hw (by linarith)
  have hmh : 0 ≤ min h' (s.height - clamp y 0 s.height) := le_min hh (by linarith)
  rw [clipRect_def]
  simp only [max_eq_right hmw, max_eq_right hmh, ne_eq, Rect.mk.injEq,
    Position.mk.injEq, Size.mk.injEq, Bool.or_eq_true, decide_eq_true_eq]
  tauto

theorem clipRect_overflow_x {r : Rect} {s : Size} (hx0 : 0 ≤ r.origin.x)
    (hx1 : r.origin.x ≤ s.width) (hov : s.width < r.origin.x + r.size.width) :
    (clipRectToPageBounds r s).1.origin.x = r.origin.x ∧
    (clipRectToPageBounds r s).1.size.width = s.width - r.origin.x := by
  rw [clipRect_def]
  simp only [clamp_eq_self hx0 hx1]
  exact ⟨by trivial, by rw [min_eq_right (by linarith), max_eq_right (by linarith)]⟩

theorem clipRect_beyond_x {r : Rect} {s : Size} (hW : 0 ≤ s.width)
    (hx : s.width < r.origin.x) :
    (clipRectToPageBounds r s).1.origin.x = s.width ∧
    (clipRectToPageBounds r s).1.size.width = 0 := by
  have hcx : clamp r.origin.x 0 s.width = s.width := by
    unfold clamp
    rw [min_eq_left (le_of_lt hx), max_eq_right hW]
  rw [clipRect_def]
  simp only [hcx, sub_self]
  exact ⟨by trivial, max_eq_left (min_le_right _ _)⟩

theorem clipRect_overflow_y {r : Rect} {s : Size} (hy0 : 0 ≤ r.origin.y)
    (hy1 : r.origin.y ≤ s.height) (hov : s.height < r.origin.y + r.size.height) :
    (clipRectToPageBounds r s).1.origin.y = r.origin.y ∧
    (clipRectToPageBounds r s).1.size.height = s.height - r.origin.y := by
  rw [clipRect_def]
  simp only [clamp_eq_self hy0 hy1]
  exact ⟨by trivial, by rw [min_eq_right (by linarith), max_eq_right (by linarith)]⟩

theorem clipRect_beyond_y {r : Rect} {s : Size} (hH : 0 ≤ s.height)
    (hy : s.height < r.origin.y) :
    (clipRectToPageBounds r s).1.origin.y = s.height ∧
    (clipRectToPageBounds r s).1.size.height = 0 := by
  have hcy : clamp r.origin.y 0 s.height = s.height := by
    unfold clamp
    rw [min_eq_left (le_of_lt hy), max_eq_right hH]
  rw [clipRect_def]
  simp only [hcy, sub_self]
  exact ⟨by trivial, max_eq_left (min_le_right _ _)⟩

theorem getRotatedPageSize_nonneg {p : PdfPageObject}
    (hw : 0 ≤ p.size.width) (hh : 0 ≤ p.size.height) :
    0 ≤ (getRotatedPageSize p).width ∧ 0 ≤ (getRotatedPageSize p).height := by
  simp only [getRotatedPageSize]
  split
  · exact ⟨hh, hw⟩
  · exact ⟨hw, hh⟩

theorem transformAnno_frame (a : PdfAnnoObject) (sp tp : PdfPageObject) :
    (transformAnnoForTargetPage a sp tp).1.id = a.id ∧
    (transformAnnoForTargetPage a sp tp).1.created = a.created ∧
    sameStyle (transformAnnoForTargetPage a sp tp).1 a := by
  cases hg : a.geometry <;>
    simp [transformAnnoForTargetPage, hg, transformInkAnno, transformPolygonAnno,
      transformPolylineAnno, transformLineAnno, sameStyle]

theorem transformAnno_within {tp : PdfPageObject} (hw : 0 ≤ tp.size.width)
    (hh : 0 ≤ tp.size.height) (a : PdfAnnoObject) (sp : PdfPageObject) :
    rectWithin (transformAnnoForTargetPage a sp tp).1.rect (getRotatedPageSize tp) ∧
    geomWithin (transformAnnoForTargetPage a sp tp).1.geometry (getRotatedPageSize tp) := by
  obtain ⟨hW, hH⟩ := getRotatedPageSize_nonneg hw hh
  cases hg : a.geometry
  case simple =>
    simp only [transformAnnoForTargetPage, hg, transformRectForTargetPage]
    exact ⟨clipRect_within hW hH _, trivial⟩
  case ink l =>
    simp only [transformAnnoForTargetPage, hg, transformInkAnno,
      transformRectForTargetPage]
    refine ⟨clipRect_within hW hH _, ?_⟩
    simp only [geomWithin, List.mem_map]
    rintro stroke ⟨s0, _, rfl⟩ p hp
    simp only [List.mem_map] at hp
    obtain ⟨p0, _, rfl⟩ := hp
    exact clipPosition_within hW hH _
  case polygon vs =>
    simp only [transformAnnoForTargetPage, hg, transformPolygonAnno,
      transformRectForTargetPage, transformPositionForTargetPage]
    refine ⟨clipRect_within hW hH _, ?_⟩
    simp only [geomWithin, List.mem_map]
    rintro p ⟨p0, _, rfl⟩
    exact clipPosition_within hW hH _
  case polyline vs =>
    simp only [transformAnnoForTargetPage, hg, transformPolylineAnno,
      transformRectForTargetPage, transformPositionForTargetPage]
    refine ⟨clipRect_within hW hH _, ?_⟩
    simp only [geomWithin, List.mem_map]
    rintro p ⟨p0, _, rfl⟩
    exact clipPosition_within hW hH _
  case line p q =>
    simp only [transformAnnoForTargetPage, hg, transformLineAnno,
      transformRectForTargetPage, transformPositionForTargetPage]
    exact ⟨clipRect_within hW hH _,
      clipPosition_within hW hH _, clipPosition_within hW hH _⟩

theorem clipPoints_map_of_within {s : Size} {l : List Position}
    (h : ∀ p ∈ l, posWithin p s) :
    (l.map fun p => (clipPositionToPageBounds p s).1) = l ∧
    (l.any fun p => (clipPositionToPageBounds p s).2) = false := by
  induction l with
  | nil => simp
  | cons p rest ih =>
      have hp := clipPosition_of_within (h p (by simp))
      have hrest := ih fun q hq => h q (by simp [hq])
      simp [hp, hrest.1, hrest.2]

theorem clipInk_map_of_within {s : Size} {l : List (List Position)}
    (h : ∀ stroke ∈ l, ∀ p ∈ stroke, posWithin p s) :
    (l.map fun stroke => stroke.map fun p => (clipPositionToPageBounds p s).1) = l ∧
    (l.any fun stroke => stroke.any fun p => (clipPositionToPageBounds p s).2) = false := by
  induction l with
  | nil => simp
  | cons st rest ih =>
      have hst := clipPoints_map_of_within (h st (by simp))
      have hrest := ih fun q hq => h q (by simp [hq])
      simp [hst.1, hst.2, hrest.1, hrest.2]

theorem transformAnno_of_within {a : PdfAnnoObject} {tp : PdfPageObject}
    (sp : PdfPageObject)
    (hrect : rectWithin a.rect (getRotatedPageSize tp))
    (hgeom : geomWithin a.geometry (getRotatedPageSize tp)) :
    transformAnnoForTargetPage a sp tp = (a, false) := by
  obtain ⟨i, pi, g, r, c, co, sc, sw, ss, op, fl, ic⟩ := a
  simp only at hrect hgeom
  have hr := clipRect_of_within hrect
  cases g with
  | simple =>
      simp [transformAnnoForTargetPage, transformRectForTargetPage, hr]
  | ink l =>
      have hl := clipInk_map_of_within hgeom
      simp [transformAnnoForTargetPage, transformInkAnno,
        transformRectForTargetPage, hr, hl.1, hl.2]
  | polygon vs =>
      have hl := clipPoints_map_of_within hgeom
      simp [transformAnnoForTargetPage, transformPolygonAnno,
        transformRectForTargetPage, transformPositionForTargetPage, hr, hl.1, hl.2]
  | polyline vs =>
      have hl := clipPoints_map_of_within hgeom
      simp [transformAnnoForTargetPage, transformPolylineAnno,
        transformRectForTargetPage, transformPositionForTargetPage, hr, hl.1, hl.2]
  | line p q =>
      obtain ⟨hp, hq⟩ := hgeom
      simp [transformAnnoForTargetPage, transformLineAnno,
        transformRectForTargetPage, transformPositionForTargetPage, hr,
        clipPosition_of_within hp, clipPosition_of_within hq]

theorem transformAnno_sp_irrel (a : PdfAnnoObject) (sp sp' tp : PdfPageObject) :
    transformAnnoForTargetPage a sp tp = transformAnnoForTargetPage a sp' tp := by
  cases hg : a.geometry <;>
    simp [transformAnnoForTargetPage, hg, transformInkAnno, transformPolygonAnno,
      transformPolylineAnno, transformLineAnno, transformRectForTargetPage,
      transformPositionForTargetPage]

theorem createDuplicateAnno_snd (newId : String) (now : Nat)
    (sourceAnno : PdfAnnoObject) (sp tp : PdfPageObject) :
    (createDuplicateAnno newId now sourceAnno sp tp).2 =
      (transformAnnoForTargetPage sourceAnno sp tp).2 :=
  rfl

theorem processPages_nil (uuid : Nat → String) (now : Nat)
    (sourceAnno : PdfAnnoObject) (sp : PdfPageObject) (inc : Bool) (k : Nat) :
    processPages uuid now sourceAnno sp inc [] k = ([], []) :=
  rfl

theorem processPages_cons_skip {sourceAnno : PdfAnnoObject} {inc : Bool}
    {p : PdfPageObject} (hc : (!inc && p.index == sourceAnno.pageIndex) = true)
    (uuid : Nat → String) (now : Nat) (sp : PdfPageObject)
    (rest : List PdfPageObject) (k : Nat) :
    processPages uuid now sourceAnno sp inc (p :: rest) k =
      processPages uuid now sourceAnno sp inc rest k := by
  simp [processPages, hc]

theorem processPages_cons_take {sourceAnno : PdfAnnoObject} {inc : Bool}
    {p : PdfPageObject} (hc : (!inc && p.index == sourceAnno.pageIndex) = false)
    (uuid : Nat → String) (now : Nat) (sp : PdfPageObject)
    (rest : List PdfPageObject) (k : Nat) :
    processPages uuid now sourceAnno sp inc (p :: rest) k =
      ((createDuplicateAnno (uuid k) now sourceAnno sp p).1 ::
         (processPages uuid now sourceAnno sp inc rest (k + 1)).1,
       if (createDuplicateAnno (uuid k) now sourceAnno sp p).2 then
         p.index :: (processPages uuid now sourceAnno sp inc rest (k + 1)).2
       else (processPages uuid now sourceAnno sp inc rest (k + 1)).2) := by
  simp [processPages, hc]

theorem eligiblePages_cons_skip {sourceAnno : PdfAnnoObject} {inc : Bool}
    {p : PdfPageObject} (hc : (!inc && p.index == sourceAnno.pageIndex) = true)
    (rest : List PdfPageObject) :
    eligiblePages sourceAnno inc (p :: rest) = eligiblePages sourceAnno inc rest := by
  have hpred : (!(!inc && p.index == sourceAnno.pageIndex)) = false := by
    rw [hc]; rfl
  unfold eligiblePages
  rw [List.filter_cons]
  simp [hpred]

theorem eligiblePages_cons_take {sourceAnno : PdfAnnoObject} {inc : Bool}
    {p : PdfPageObject} (hc : (!inc && p.index == sourceAnno.pageIndex) = false)
    (rest : List PdfPageObject) :
    eligiblePages sourceAnno inc (p :: rest) = p :: eligiblePages sourceAnno inc rest := by
  have hpred : (!(!inc && p.index == sourceAnno.pageIndex)) = true := by
    rw [hc]; rfl
  unfold eligiblePages
  rw [List.filter_cons]
  simp [hpred]

theorem processPages_map_pageIndex (uuid : Nat → String) (now : Nat)
    (sourceAnno : PdfAnnoObject) (sp : PdfPageObject) (inc : Bool)
    (pages : List PdfPageObject) :
    ∀ k, ((processPages uuid now sourceAnno sp inc pages k).1.map
            fun a => a.pageIndex) =
      ((eligiblePages sourceAnno inc pages).map fun p => p.index) := by
  induction pages with
  | nil => intro k; rfl
  | cons p rest ih =>
      intro k
      by_cases hc : (!inc && p.index == sourceAnno.pageIndex) = true
      · rw [processPages_cons_skip hc, eligiblePages_cons_skip hc]
        exact ih k
      · have hc' : (!inc && p.index == sourceAnno.pageIndex) = false := by
          simpa using hc
        rw [processPages_cons_take hc', eligiblePages_cons_take hc']
        simp only [List.map_cons, ih (k + 1)]
        rfl

theorem processPages_length (uuid : Nat → String) (now : Nat)
    (sourceAnno : PdfAnnoObject) (sp : PdfPageObject) (inc : Bool)
    (pages : List PdfPageObject) (k : Nat) :
    (processPages uuid now sourceAnno sp inc pages k).1.length =
      (eligiblePages sourceAnno inc pages).length := by
  have h := congrArg List.length
    (processPages_map_pageIndex uuid now sourceAnno sp inc pages k)
  simpa using h

theorem processPages_snd (uuid : Nat → String) (now : Nat)
    (sourceAnno : PdfAnnoObject) (sp : PdfPageObject) (inc : Bool)
    (pages : List PdfPageObject) :
    ∀ k, (processPages uuid now sourceAnno sp inc pages k).2 =
      (((eligiblePages sourceAnno inc pages).filter
          fun p => (transformAnnoForTargetPage sourceAnno sp p).2).map
        fun p => p.index) := by
  induction pages with
  | nil => intro k; rfl
  | cons p rest ih =>
      intro k
      by_cases hc : (!inc && p.index == sourceAnno.pageIndex) = true
      · rw [processPages_cons_skip hc, eligiblePages_cons_skip hc]
        exact ih k
      · have hc' : (!inc && p.index == sourceAnno.pageIndex) = false := by
          simpa using hc
        rw [processPages_cons_take hc', eligiblePages_cons_take hc']
        simp only [createDuplicateAnno_snd]
        rcases Bool.eq_false_or_eq_true ((transformAnnoForTargetPage sourceAnno sp p).2)
          with hf | hf <;>
          simp [List.filter_cons, hf, ih (k + 1)]

theorem processPages_frame (uuid : Nat → String) (now : Nat)
    (sourceAnno : PdfAnnoObject) (sp : PdfPageObject) (inc : Bool)
    (pages : List PdfPageObject) :
    ∀ k, ∀ a ∈ (processPages uuid now sourceAnno sp inc pages k).1,
      a.created = now ∧ sameStyle a sourceAnno := by
  induction pages with
  | nil => intro k a ha; simp [processPages_nil] at ha
  | cons p rest ih =>
      intro k a ha
      by_cases hc : (!inc && p.index == sourceAnno.pageIndex) = true
      · rw [processPages_cons_skip hc] at ha
        exact ih k a ha
      · have hc' : (!inc && p.index == sourceAnno.pageIndex) = false := by
          simpa using hc
        rw [processPages_cons_take hc'] at ha
        rcases List.mem_cons.mp ha with h | h
        · subst h
          exact ⟨rfl, (transformAnno_frame sourceAnno sp p).2.2⟩
        · exact ih (k + 1) a h

theorem processPages_bounds (uuid : Nat → String) (now : Nat)
    (sourceAnno : PdfAnnoObject) (sp : PdfPageObject) (inc : Bool)
    (pages : List PdfPageObject)
    (hdim : ∀ p ∈ pages, 0 ≤ p.size.width ∧ 0 ≤ p.size.height) :
    ∀ k, List.Forall₂
      (fun a p => rectWithin a.rect (getRotatedPageSize p) ∧
        geomWithin a.geometry (getRotatedPageSize p))
      (processPages uuid now sourceAnno sp inc pages k).1
      (eligiblePages sourceAnno inc pages) := by
  induction pages with
  | nil => intro k; exact List.Forall₂.nil
  | cons p rest ih =>
      intro k
      have hdrest : ∀ q ∈ rest, 0 ≤ q.size.width ∧ 0 ≤ q.size.height :=
        fun q hq => hdim q (List.mem_cons_of_mem _ hq)
      by_cases hc : (!inc && p.index == sourceAnno.pageIndex) = true
      · rw [processPages_cons_skip hc, eligiblePages_cons_skip hc]
        exact ih hdrest k
      · have hc' : (!inc && p.index == sourceAnno.pageIndex) = false := by
          simpa using hc
        rw [processPages_cons_take hc', eligiblePages_cons_take hc']
        have hp := hdim p (List.mem_cons_self _ _)
        exact List.Forall₂.cons (transformAnno_within hp.1 hp.2 sourceAnno sp)
          (ih hdrest (k + 1))

theorem processPages_ids_ge (uuid : Nat → String) (now : Nat)
    (sourceAnno : PdfAnnoObject) (sp : PdfPageObject) (inc : Bool)
    (pages : List PdfPageObject) :
    ∀ k, ∀ a ∈ (processPages uuid now sourceAnno sp inc pages k).1,
      ∃ i, k ≤ i ∧ a.id = uuid i := by
  induction pages with
  | nil => intro k a ha; simp [processPages_nil] at ha
  | cons p rest ih =>
      intro k a ha
      by_cases hc : (!inc && p.index == sourceAnno.pageIndex) = true
      · rw [processPages_cons_skip hc] at ha
        exact ih k a ha
      · have hc' : (!inc && p.index == sourceAnno.pageIndex) = false := by
          simpa using hc
        rw [processPages_cons_take hc'] at ha
        rcases List.mem_cons.mp ha with h | h
        · exact ⟨k, Nat.le_refl k, by rw [h]; rfl⟩
        · obtain ⟨i, hi, hid⟩ := ih (k + 1) a h
          exact ⟨i, by omega, hid⟩

theorem processPages_ids_nodup (uuid : Nat → String) (now : Nat)
    (sourceAnno : PdfAnnoObject) (sp : PdfPageObject) (inc : Bool)
    (hinj : ∀ i j : Nat, i ≠ j → uuid i ≠ uuid j)
    (pages : List PdfPageObject) :
    ∀ k, ((processPages uuid now sourceAnno sp inc pages k).1.map
            fun a => a.id).Nodup := by
  induction pages with
  | nil => intro k; simp [processPages_nil]
  | cons p rest ih =>
      intro k
      by_cases hc : (!inc && p.index == sourceAnno.pageIndex) = true
      · rw [processPages_cons_skip hc]
        exact ih k
      · have hc' : (!inc && p.index == sourceAnno.pageIndex) = false := by
          simpa using hc
        rw [processPages_cons_take hc']
        simp only [List.map_cons, List.nodup_cons]
        refine ⟨?_, ih (k + 1)⟩
        intro hmem
        simp only [List.mem_map] at hmem
        obtain ⟨a, ha, hid⟩ := hmem
        obtain ⟨i, hi, hid'⟩ :=
          processPages_ids_ge uuid now sourceAnno sp inc rest (k + 1) a ha
        exact hinj i k (by omega) (hid'.symm.trans hid)

theorem eligiblePages_of_include (sourceAnno : PdfAnnoObject)
    (pages : List PdfPageObject) :
    eligiblePages sourceAnno true pages = pages := by
  unfold eligiblePages
  simp

theorem eligiblePages_length_of_nodup {sourceAnno : PdfAnnoObject}
    {pages : List PdfPageObject}
    (hnodup : (pages.map fun p => p.index).Nodup)
    (hex : ∃ p ∈ pages, p.index = sourceAnno.pageIndex) :
    (eligiblePages sourceAnno false pages).length = pages.length - 1 := by
  induction pages with
  | nil => simp at hex
  | cons p rest ih =>
      simp only [List.map_cons, List.nodup_cons] at hnodup
      by_cases hp : p.index = sourceAnno.pageIndex
      · have hskip : (!false && p.index == sourceAnno.pageIndex) = true := by
          simp [hp]
        rw [eligiblePages_cons_skip hskip]
        have hall : eligiblePages sourceAnno false rest = rest := by
          unfold eligiblePages
          rw [List.filter_eq_self]
          intro q hq
          have hqi : q.index ≠ sourceAnno.pageIndex := by
            intro h
            exact hnodup.1 (List.mem_map.mpr ⟨q, hq, by rw [h, hp]⟩)
          simp [hqi]
        rw [hall]
        simp
      · have htake : (!false && p.index == sourceAnno.pageIndex) = false := by
          simp [hp]
        rw [eligiblePages_cons_take htake]
        have hex' : ∃ q ∈ rest, q.index = sourceAnno.pageIndex := by
          obtain ⟨q, hq, hqi⟩ := hex
          rcases List.mem_cons.mp hq with h | h
          · exact absurd (h ▸ hqi) hp
          · exact ⟨q, h, hqi⟩
        have hlen := ih hnodup.2 hex'
        have hpos : 0 < rest.length := by
          obtain ⟨q, hq, _⟩ := hex'
          exact List.length_pos.mpr (List.ne_nil_of_mem hq)
        simp only [List.length_cons]
        omega

theorem generate_eq_ok {uuid : Nat → String} {now : Nat}
    {sourceAnno : PdfAnnoObject} {pages : List PdfPageObject} {inc : Bool}
    {sp : PdfPageObject}
    (hfind : pages.find? (fun p => p.index == sourceAnno.pageIndex) = some sp) :
    generateDuplicateAnnotations uuid now sourceAnno pages inc =
      Except.ok
        { annotations := (processPages uuid now sourceAnno sp inc pages 0).1
          clippedPages := (processPages uuid now sourceAnno sp inc pages 0).2 } := by
  unfold generateDuplicateAnnotations
  rw [hfind]

theorem generate_eq_error {uuid : Nat → String} {now : Nat}
    {sourceAnno : PdfAnnoObject} {pages : List PdfPageObject} {inc : Bool}
    (h : ∀ p ∈ pages, p.index ≠ sourceAnno.pageIndex) :
    generateDuplicateAnnotations uuid now sourceAnno pages inc =
      Except.error (DuplicateError.sourcePageNotFound sourceAnno.pageIndex) := by
  unfold generateDuplicateAnnotations
  have hnone : pages.find? (fun p => p.index == sourceAnno.pageIndex) = none := by
    rw [List.find?_eq_none]
    intro p hp
    simpa using h p hp
  rw [hnone]

theorem find_sp_exists {sourceAnno : PdfAnnoObject} {pages : List PdfPageObject}
    (hex : ∃ p ∈ pages, p.index = sourceAnno.pageIndex) :
    ∃ sp, pages.find? (fun p => p.index == sourceAnno.pageIndex) = some sp := by
  obtain ⟨p, hp, hpi⟩ := hex
  have hsome : (pages.find? fun p => p.index == sourceAnno.pageIndex).isSome := by
    rw [List.find?_isSome]
    exact ⟨p, hp, by simp [hpi]⟩
  exact Option.isSome_iff_exists.mp hsome

theorem wuuid_inj : ∀ i j : Nat, i ≠ j → wuuid i ≠ wuuid j := by
  intro i j hij h
  apply hij
  have hlen := congrArg (fun s => s.data.length) h
  simpa [wuuid] using hlen

theorem wuuid_ne_empty : ∀ i : Nat, wuuid i ≠ "" := by
  intro i h
  have hlen := congrArg (fun s => s.data.length) h
  simp [wuuid, String.data] at hlen

/-- C1: whenever every supplied page has nonnegative width and height and
some page carries the source annotation's page index, the call returns
normally, and each produced annotation's rect and point geometry lie
within the rotation-adjusted bounds of its target page (the corresponding
eligible page of the input sequence, in order). -/
theorem C1_geometry_within_bounds (uuid : Nat → String) (now : Nat)
    (sourceAnno : PdfAnnoObject) (pages : List PdfPageObject) (inc : Bool)
    (hex : ∃ p ∈ pages, p.index = sourceAnno.pageIndex)
    (hdim : ∀ p ∈ pages, 0 ≤ p.size.width ∧ 0 ≤ p.size.height) :
    ∃ res, generateDuplicateAnnotations uuid now sourceAnno pages inc =
        Except.ok res ∧
      List.Forall₂
        (fun a p => rectWithin a.rect (getRotatedPageSize p) ∧
          geomWithin a.geometry (getRotatedPageSize p))
        res.annotations (eligiblePages sourceAnno inc pages) := by
  obtain ⟨sp, hfind⟩ := find_sp_exists hex
  exact ⟨_, generate_eq_ok hfind,
    processPages_bounds uuid now sourceAnno sp inc pages hdim 0⟩

theorem C1_witness :
    (∃ p ∈ [wPage0, wSmallPage1, wRotPage2],
        p.index = wOverflowAnno.pageIndex) ∧
    (∀ p ∈ [wPage0, wSmallPage1, wRotPage2],
        0 ≤ p.size.width ∧ 0 ≤ p.size.height) ∧
    ∃ res, generateDuplicateAnnotations wuuid 0 wOverflowAnno
        [wPage0, wSmallPage1, wRotPage2] false = Except.ok res ∧
      List.Forall₂
        (fun a p => rectWithin a.rect (getRotatedPageSize p) ∧
          geomWithin a.geometry (getRotatedPageSize p))
        res.annotations
        (eligiblePages wOverflowAnno false [wPage0, wSmallPage1, wRotPage2]) :=
  ⟨by decide, by decide,
    C1_geometry_within_bounds wuuid 0 wOverflowAnno
      [wPage0, wSmallPage1, wRotPage2] false (by decide) (by decide)⟩

/-- C2: with unique page indexes and an existing source page, the result
has `pages.length` annotations when the source page is included and
`pages.length - 1` otherwise, the produced page indexes follow the
eligible pages of the input order, and a single-page document without
`includeSourcePage` yields no annotations and no clipped pages. -/
theorem C2_count_and_order (uuid : Nat → String) (now : Nat)
    (sourceAnno : PdfAnnoObject) (pages : List PdfPageObject) (inc : Bool)
    (hnodup : (pages.map fun p => p.index).Nodup)
    (hex : ∃ p ∈ pages, p.index = sourceAnno.pageIndex) :
    ∃ res, generateDuplicateAnnotations uuid now sourceAnno pages inc =
        Except.ok res ∧
      res.annotations.length =
        (if inc then pages.length else pages.length - 1) ∧
      (res.annotations.map fun a => a.pageIndex) =
        ((eligiblePages sourceAnno inc pages).map fun p => p.index) ∧
      (pages.length = 1 → inc = false →
        res.annotations = [] ∧ res.clippedPages = []) := by
  obtain ⟨sp, hfind⟩ := find_sp_exists hex
  refine ⟨_, generate_eq_ok hfind, ?_, ?_, ?_⟩
  · show (processPages uuid now sourceAnno sp inc pages 0).1.length = _
    rw [processPages_length]
    cases inc with
    | false => simpa using eligiblePages_length_of_nodup hnodup hex
    | true => rw [eligiblePages_of_include]; simp
  · exact processPages_map_pageIndex uuid now sourceAnno sp inc pages 0
  · intro h1 hincf
    subst hincf
    have hlen0 : (eligiblePages sourceAnno false pages).length = 0 := by
      rw [eligiblePages_length_of_nodup hnodup hex, h1]
    have helig : eligiblePages sourceAnno false pages = [] :=
      List.length_eq_zero.mp hlen0
    constructor
    · show (processPages uuid now sourceAnno sp false pages 0).1 = []
      have hl := processPages_length uuid now sourceAnno sp false pages 0
      rw [hlen0] at hl
      exact List.length_eq_zero.mp hl
    · show (processPages uuid now sourceAnno sp false pages 0).2 = []
      rw [processPages_snd, helig]
      rfl

theorem C2_witness :
    (([wPage0].map fun p => p.index).Nodup) ∧
    (∃ p ∈ [wPage0], p.index = wAnno.pageIndex) ∧
    ∃ res, generateDuplicateAnnotations wuuid 0 wAnno [wPage0] false =
        Except.ok res ∧
      res.annotations.length = (if false then [wPage0].length else [wPage0].length - 1) ∧
      (res.annotations.map fun a => a.pageIndex) =
        ((eligiblePages wAnno false [wPage0]).map fun p => p.index) ∧
      ([wPage0].length = 1 → false = false →
        res.annotations = [] ∧ res.clippedPages = []) :=
  ⟨by decide, by decide,
    C2_count_and_order wuuid 0 wAnno [wPage0] false (by decide) (by decide)⟩

/-- C3: clipping a rect with nonnegative size against nonnegative bounds:
an in-bounds origin whose far edge overflows keeps its origin and gets
width exactly `bound.width - origin.x`; an origin beyond the bound is
pulled to the bound with width 0; and symmetrically in y. -/
theorem C3_clip_rect_formulas (r : Rect) (bound : Size)
    (hw : 0 ≤ r.size.width) (hh : 0 ≤ r.size.height)
    (hbw : 0 ≤ bound.width) (hbh : 0 ≤ bound.height) :
    ((0 ≤ r.origin.x → r.origin.x ≤ bound.width →
        bound.width < r.origin.x + r.size.width →
        (clipRectToPageBounds r bound).1.origin.x = r.origin.x ∧
        (clipRectToPageBounds r bound).1.size.width = bound.width - r.origin.x) ∧
     (bound.width < r.origin.x →
        (clipRectToPageBounds r bound).1.origin.x = bound.width ∧
        (clipRectToPageBounds r bound).1.size.width = 0)) ∧
    ((0 ≤ r.origin.y → r.origin.y ≤ bound.height →
        bound.height < r.origin.y + r.size.height →
        (clipRectToPageBounds r bound).1.origin.y = r.origin.y ∧
        (clipRectToPageBounds r bound).1.size.height = bound.height - r.origin.y) ∧
     (bound.height < r.origin.y →
        (clipRectToPageBounds r bound).1.origin.y = bound.height ∧
        (clipRectToPageBounds r bound).1.size.height = 0)) :=
  ⟨⟨fun h1 h2 h3 => clipRect_overflow_x h1 h2 h3,
    fun h => clipRect_beyond_x hbw h⟩,
   ⟨fun h1 h2 h3 => clipRect_overflow_y h1 h2 h3,
    fun h => clipRect_beyond_y hbh h⟩⟩

theorem C3_witness :
    (0 : ℚ) ≤ 100 ∧ (0 : ℚ) ≤ 100 ∧ (0 : ℚ) ≤ 300 ∧ (0 : ℚ) ≤ 400 ∧
    (((0 ≤ (400 : ℚ) → (400 : ℚ) ≤ 300 → (300 : ℚ) < 400 + 100 →
        (clipRectToPageBounds
            { origin := { x := 400, y := 500 }, size := { width := 100, height := 100 } }
            { width := 300, height := 400 }).1.origin.x = 400 ∧
        (clipRectToPageBounds
            { origin := { x := 400, y := 500 }, size := { width := 100, height := 100 } }
            { width := 300, height := 400 }).1.size.width = 300 - 400) ∧
      ((300 : ℚ) < 400 →
        (clipRectToPageBounds
            { origin := { x := 400, y := 500 }, size := { width := 100, height := 100 } }
            { width := 300, height := 400 }).1.origin.x = 300 ∧
        (clipRectToPageBounds
            { origin := { x := 400, y := 500 }, size := { width := 100, height := 100 } }
            { width := 300, height := 400 }).1.size.width = 0)) ∧
     (((0 : ℚ) ≤ 500 → (500 : ℚ) ≤ 400 → (400 : ℚ) < 500 + 100 →
        (clipRectToPageBounds
            { origin := { x := 400, y := 500 }, size := { width := 100, height := 100 } }
            { width := 300, height := 400 }).1.origin.y = 500 ∧
        (clipRectToPageBounds
            { origin := { x := 400, y := 500 }, size := { width := 100, height := 100 } }
            { width := 300, height := 400 }).1.size.height = 400 - 500) ∧
      ((400 : ℚ) < 500 →
        (clipRectToPageBounds
            { origin := { x := 400, y := 500 }, size := { width := 100, height := 100 } }
            { width := 300, height := 400 }).1.origin.y = 400 ∧
        (clipRectToPageBounds
            { origin := { x := 400, y := 500 }, size := { width := 100, height := 100 } }
            { width := 300, height := 400 }).1.size.height = 0))) :=
  ⟨by decide, by decide, by decide, by decide,
    C3_clip_rect_formulas
      { origin := { x := 400, y := 500 }, size := { width := 100, height := 100 } }
      { width := 300, height := 400 } (by decide) (by decide) (by decide) (by decide)⟩

/-- C4: the call throws exactly when no supplied page carries the source
annotation's page index; the error is the single kind
`sourcePageNotFound` carrying the offending index, and with a matching
page the call always succeeds. -/
theorem C4_source_page_lookup (uuid : Nat → String) (now : Nat)
    (sourceAnno : PdfAnnoObject) (pages : List PdfPageObject) (inc : Bool) :
    ((∀ p ∈ pages, p.index ≠ sourceAnno.pageIndex) →
      generateDuplicateAnnotations uuid now sourceAnno pages inc =
        Except.error (DuplicateError.sourcePageNotFound sourceAnno.pageIndex)) ∧
    ((∃ p ∈ pages, p.index = sourceAnno.pageIndex) →
      ∃ res, generateDuplicateAnnotations uuid now sourceAnno pages inc =
        Except.ok res) := by
  constructor
  · exact generate_eq_error
  · intro hex
    obtain ⟨sp, hfind⟩ := find_sp_exists hex
    exact ⟨_, generate_eq_ok hfind⟩

theorem C4_witness :
    generateDuplicateAnnotations wuuid 0 wAnno [wPage1] false =
      Except.error (DuplicateError.sourcePageNotFound wAnno.pageIndex) :=
  (C4_source_page_lookup wuuid 0 wAnno [wPage1] false).1 (by decide)

/-- C5: point clipping clamps x into `[0, width]` and y into
`[0, height]` independently, with the clipped flag true exactly when the
point changed; rect clipping flags true exactly when the rect changed;
and a rect touching the right edge exactly (with the rest in bounds) is
returned unchanged and unflagged. -/
theorem C5_clip_flags (pos : Position) (r : Rect) (bound : Size)
    (hbw : 0 ≤ bound.width) (hbh : 0 ≤ bound.height)
    (hw : 0 ≤ r.size.width) (hh : 0 ≤ r.size.height) :
    ((clipPositionToPageBounds pos bound).1 =
        { x := clamp pos.x 0 bound.width, y := clamp pos.y 0 bound.height } ∧
      (((clipPositionToPageBounds pos bound).2 = true) ↔
        (clipPositionToPageBounds pos bound).1 ≠ pos)) ∧
    (((clipRectToPageBounds r bound).2 = true) ↔
      (clipRectToPageBounds r bound).1 ≠ r) ∧
    (0 ≤ r.origin.x → 0 ≤ r.origin.y →
      r.origin.x + r.size.width = bound.width →
      r.origin.y + r.size.height ≤ bound.height →
      clipRectToPageBounds r bound = (r, false)) := by
  refine ⟨⟨clipPosition_fst pos bound, clipPosition_snd_iff pos bound⟩,
    clipRect_snd_iff hbw hbh hw hh, ?_⟩
  intro h1 h2 h3 h4
  exact clipRect_of_within ⟨h1, h2, hw, hh, le_of_eq h3, h4⟩

theorem C5_witness :
    (0 : ℚ) ≤ 612 ∧ (0 : ℚ) ≤ 792 ∧ (0 : ℚ) ≤ 512 ∧ (0 : ℚ) ≤ 692 ∧
    (((clipPositionToPageBounds { x := 700, y := -5 }
          { width := 612, height := 792 }).1 =
        { x := clamp 700 0 612, y := clamp (-5) 0 792 } ∧
      (((clipPositionToPageBounds { x := 700, y := -5 }
            { width := 612, height := 792 }).2 = true) ↔
        (clipPositionToPageBounds { x := 700, y := -5 }
            { width := 612, height := 792 }).1 ≠ { x := 700, y := -5 })) ∧
     (((clipRectToPageBounds
           { origin := { x := 100, y := 100 }, size := { width := 512, height := 692 } }
           { width := 612, height := 792 }).2 = true) ↔
       (clipRectToPageBounds
           { origin := { x := 100, y := 100 }, size := { width := 512, height := 692 } }
           { width := 612, height := 792 }).1 ≠
         { origin := { x := 100, y := 100 }, size := { width := 512, height := 692 } }) ∧
     ((0 : ℚ) ≤ 100 → (0 : ℚ) ≤ 100 → (100 : ℚ) + 512 = 612 →
       (100 : ℚ) + 692 ≤ 792 →
       clipRectToPageBounds
           { origin := { x := 100, y := 100 }, size := { width := 512, height := 692 } }
           { width := 612, height := 792 } =
         ({ origin := { x := 100, y := 100 }, size := { width := 512, height := 692 } },
          false))) :=
  ⟨by decide, by decide, by decide, by decide,
    C5_clip_flags { x := 700, y := -5 }
      { origin := { x := 100, y := 100 }, size := { width := 512, height := 692 } }
      { width := 612, height := 792 } (by decide) (by decide) (by decide) (by decide)⟩

theorem rotSize_wPage0 : getRotatedPageSize wPage0 = { width := 612, height := 792 } := by
  simp [getRotatedPageSize, wPage0]

theorem rotSize_wPage1 : getRotatedPageSize wPage1 = { width := 612, height := 792 } := by
  simp [getRotatedPageSize, wPage1]

theorem rotSize_wSmallPage1 :
    getRotatedPageSize wSmallPage1 = { width := 300, height := 400 } := by
  simp [getRotatedPageSize, wSmallPage1]

theorem rotSize_wTinyPage0 :
    getRotatedPageSize wTinyPage0 = { width := 10, height := 10 } := by
  simp [getRotatedPageSize, wTinyPage0]

theorem htrA_wPage0 : transformAnnoForTargetPage wAnno wPage0 wPage0 = (wAnno, false) :=
  transformAnno_of_within wPage0
    (by rw [rotSize_wPage0]; norm_num [rectWithin, wAnno]) (by trivial)

theorem htrA_wPage1 : transformAnnoForTargetPage wAnno wPage0 wPage1 = (wAnno, false) :=
  transformAnno_of_within wPage0
    (by rw [rotSize_wPage1]; norm_num [rectWithin, wAnno]) (by trivial)

theorem htrA_wPage1_tiny :
    transformAnnoForTargetPage wAnno wTinyPage0 wPage1 = (wAnno, false) :=
  transformAnno_of_within wTinyPage0
    (by rw [rotSize_wPage1]; norm_num [rectWithin, wAnno]) (by trivial)

theorem htr_tiny : transformAnnoForTargetPage wAnno wTinyPage0 wTinyPage0 =
    ({ wAnno with
        rect := { origin := { x := 10, y := 10 }, size := { width := 0, height := 0 } } },
     true) := by
  have hclip : clipRectToPageBounds wAnno.rect { width := 10, height := 10 } =
      ({ origin := { x := 10, y := 10 }, size := { width := 0, height := 0 } }, true) := by
    rw [clipRect_def]
    simp only [wAnno]
    norm_num [clamp, min_def, max_def, Prod.mk.injEq, Rect.mk.injEq, Position.mk.injEq,
      Size.mk.injEq, Bool.or_eq_true, decide_eq_true_eq]
  have hg : wAnno.geometry = PdfAnnoGeometry.simple := rfl
  simp [transformAnnoForTargetPage, hg, transformRectForTargetPage,
    rotSize_wTinyPage0, hclip]

theorem htr_over : transformAnnoForTargetPage wOverflowAnno wPage0 wSmallPage1 =
    ({ wOverflowAnno with
        rect := { origin := { x := 300, y := 400 }, size := { width := 0, height := 0 } } },
     true) := by
  have hclip : clipRectToPageBounds wOverflowAnno.rect { width := 300, height := 400 } =
      ({ origin := { x := 300, y := 400 }, size := { width := 0, height := 0 } }, true) := by
    rw [clipRect_def]
    simp only [wOverflowAnno]
    norm_num [clamp, min_def, max_def, Prod.mk.injEq, Rect.mk.injEq, Position.mk.injEq,
      Size.mk.injEq, Bool.or_eq_true, decide_eq_true_eq]
  have hg : wOverflowAnno.geometry = PdfAnnoGeometry.simple := rfl
  simp [transformAnnoForTargetPage, hg, transformRectForTargetPage,
    rotSize_wSmallPage1, hclip]

theorem generate_wRes01 :
    generateDuplicateAnnotations wuuid 0 wAnno [wPage0, wPage1] false =
      Except.ok wRes01 := by
  have hfind : [wPage0, wPage1].find? (fun p => p.index == wAnno.pageIndex) =
      some wPage0 := rfl
  rw [generate_eq_ok hfind]
  rw [processPages_cons_skip (by rfl), processPages_cons_take (by rfl), processPages_nil]
  simp only [createDuplicateAnno, htrA_wPage1]
  rfl

theorem generate_wResClip :
    generateDuplicateAnnotations wuuid 0 wOverflowAnno [wPage0, wSmallPage1] false =
      Except.ok wResClip := by
  have hfind : [wPage0, wSmallPage1].find?
      (fun p => p.index == wOverflowAnno.pageIndex) = some wPage0 := rfl
  rw [generate_eq_ok hfind]
  rw [processPages_cons_skip (by rfl), processPages_cons_take (by rfl), processPages_nil]
  simp only [createDuplicateAnno, htr_over]
  rfl

theorem generate_wResInc :
    generateDuplicateAnnotations wuuid 0 wAnno [wPage0, wPage1] true =
      Except.ok wResInc := by
  have hfind : [wPage0, wPage1].find? (fun p => p.index == wAnno.pageIndex) =
      some wPage0 := rfl
  rw [generate_eq_ok hfind]
  rw [processPages_cons_take (by rfl), processPages_cons_take (by rfl), processPages_nil]
  simp only [createDuplicateAnno, htrA_wPage0, htrA_wPage1]
  rfl

theorem generate_wResIncTiny :
    generateDuplicateAnnotations wuuid 0 wAnno [wTinyPage0, wPage1] true =
      Except.ok wResIncTiny := by
  have hfind : [wTinyPage0, wPage1].find? (fun p => p.index == wAnno.pageIndex) =
      some wTinyPage0 := rfl
  rw [generate_eq_ok hfind]
  rw [processPages_cons_take (by rfl), processPages_cons_take (by rfl), processPages_nil]
  simp only [createDuplicateAnno, htr_tiny, htrA_wPage1_tiny]
  norm_num [wResIncTiny]
  exact ⟨⟨⟨rfl, rfl, rfl⟩, rfl, rfl, rfl⟩, rfl⟩

theorem generate_ok_inv {uuid : Nat → String} {now : Nat}
    {sourceAnno : PdfAnnoObject} {pages : List PdfPageObject} {inc : Bool}
    {res : DuplicateAnnotationResult}
    (hok : generateDuplicateAnnotations uuid now sourceAnno pages inc =
      Except.ok res) :
    ∃ sp, pages.find? (fun p => p.index == sourceAnno.pageIndex) = some sp ∧
      res.annotations = (processPages uuid now sourceAnno sp inc pages 0).1 ∧
      res.clippedPages = (processPages uuid now sourceAnno sp inc pages 0).2 := by
  cases hfind : pages.find? (fun p => p.index == sourceAnno.pageIndex) with
  | none =>
      have hall : ∀ p ∈ pages, p.index ≠ sourceAnno.pageIndex := by
        intro p hp
        have h := List.find?_eq_none.mp hfind p hp
        simpa using h
      rw [generate_eq_error hall] at hok
      exact absurd hok (by simp)
  | some sp =>
      have h2 := (generate_eq_ok hfind).symm.trans hok
      injection h2 with h3
      exact ⟨sp, rfl, by rw [← h3], by rw [← h3]⟩

/-- C6 as stated fails on the code: an annotation whose rect starts left
of the page is clipped even though the target page has the same size and
rotation 0 as the source page. -/
theorem C6_counterexample :
    wPage1.size = wPage0.size ∧
    wPage1.rotation = Rotation.degree0 ∧
    ¬((createDuplicateAnno "a" 0 wBadAnno wPage0 wPage1).1.rect = wBadAnno.rect ∧
      (createDuplicateAnno "a" 0 wBadAnno wPage0 wPage1).2 = false) := by
  decide

/-- C6 amended: on a target page of the same size and rotation 0, a
source annotation whose rect and point geometry lie within the page size
is reproduced exactly and reported unclipped. -/
theorem C6_amended (newId : String) (now : Nat) (sourceAnno : PdfAnnoObject)
    (sourcePage targetPage : PdfPageObject)
    (hsize : targetPage.size = sourcePage.size)
    (hrot : targetPage.rotation = Rotation.degree0)
    (hrect : rectWithin sourceAnno.rect targetPage.size)
    (hgeom : geomWithin sourceAnno.geometry targetPage.size) :
    (createDuplicateAnno newId now sourceAnno sourcePage targetPage).1.rect =
      sourceAnno.rect ∧
    (createDuplicateAnno newId now sourceAnno sourcePage targetPage).1.geometry =
      sourceAnno.geometry ∧
    (createDuplicateAnno newId now sourceAnno sourcePage targetPage).2 = false := by
  have hsz : getRotatedPageSize targetPage = targetPage.size := by
    simp [getRotatedPageSize, hrot]
  have hrect' : rectWithin sourceAnno.rect (getRotatedPageSize targetPage) := by
    rw [hsz]; exact hrect
  have hgeom' : geomWithin sourceAnno.geometry (getRotatedPageSize targetPage) := by
    rw [hsz]; exact hgeom
  have ht := transformAnno_of_within sourcePage hrect' hgeom'
  refine ⟨?_, ?_, ?_⟩ <;> simp [createDuplicateAnno, ht]

theorem C6_witness :
    wPage1.size = wPage0.size ∧
    wPage1.rotation = Rotation.degree0 ∧
    rectWithin wInkAnno.rect wPage1.size ∧
    geomWithin wInkAnno.geometry wPage1.size ∧
    ((createDuplicateAnno "a" 0 wInkAnno wPage0 wPage1).1.rect = wInkAnno.rect ∧
     (createDuplicateAnno "a" 0 wInkAnno wPage0 wPage1).1.geometry =
       wInkAnno.geometry ∧
     (createDuplicateAnno "a" 0 wInkAnno wPage0 wPage1).2 = false) :=
  ⟨by decide, by decide, by norm_num [rectWithin, wInkAnno, wPage1], by decide,
    C6_amended "a" 0 wInkAnno wPage0 wPage1 (by decide) (by decide)
      (by norm_num [rectWithin, wInkAnno, wPage1]) (by decide)⟩

/-- C7: when the identity generator never repeats a draw and never
collides with the source id, every produced annotation carries a fresh
id, distinct from the source id and from every other produced id. -/
theorem C7_fresh_unique_ids (uuid : Nat → String) (now : Nat)
    (sourceAnno : PdfAnnoObject) (pages : List PdfPageObject) (inc : Bool)
    (res : DuplicateAnnotationResult)
    (hinj : ∀ i j : Nat, i ≠ j → uuid i ≠ uuid j)
    (hfresh : ∀ i : Nat, uuid i ≠ sourceAnno.id)
    (hok : generateDuplicateAnnotations uuid now sourceAnno pages inc =
      Except.ok res) :
    ((res.annotations.map fun a => a.id).Nodup) ∧
    ∀ a ∈ res.annotations, a.id ≠ sourceAnno.id := by
  obtain ⟨sp, hfind, hann, _⟩ := generate_ok_inv hok
  rw [hann]
  constructor
  · exact processPages_ids_nodup uuid now sourceAnno sp inc hinj pages 0
  · intro a ha
    obtain ⟨i, _, hid⟩ := processPages_ids_ge uuid now sourceAnno sp inc pages 0 a ha
    rw [hid]
    exact hfresh i

theorem C7_witness :
    (generateDuplicateAnnotations wuuid 0 wAnno [wPage0, wPage1] false =
      Except.ok wRes01) ∧
    ((wRes01.annotations.map fun a => a.id).Nodup ∧
      ∀ a ∈ wRes01.annotations, a.id ≠ wAnno.id) :=
  ⟨generate_wRes01, C7_fresh_unique_ids wuuid 0 wAnno [wPage0, wPage1] false wRes01
    wuuid_inj wuuid_ne_empty generate_wRes01⟩

theorem processPages_sp_irrel (uuid : Nat → String) (now : Nat)
    (sourceAnno : PdfAnnoObject) (sp sp' : PdfPageObject) (inc : Bool)
    (pages : List PdfPageObject) :
    ∀ k, processPages uuid now sourceAnno sp inc pages k =
      processPages uuid now sourceAnno sp' inc pages k := by
  induction pages with
  | nil => intro k; rfl
  | cons p rest ih =>
      intro k
      by_cases hc : (!inc && p.index == sourceAnno.pageIndex) = true
      · rw [processPages_cons_skip hc, processPages_cons_skip hc, ih k]
      · have hc' : (!inc && p.index == sourceAnno.pageIndex) = false := by
          simpa using hc
        rw [processPages_cons_take hc', processPages_cons_take hc', ih (k + 1)]
        have ht := transformAnno_sp_irrel sourceAnno sp sp' p
        simp [createDuplicateAnno, ht]

theorem processPages_congr (uuid : Nat → String) (now : Nat)
    (sourceAnno : PdfAnnoObject) (sp : PdfPageObject)
    {pages pages' : List PdfPageObject}
    (hrel : List.Forall₂
      (fun p q => p.index = q.index ∧ (p.index ≠ sourceAnno.pageIndex → p = q))
      pages pages') :
    ∀ k, processPages uuid now sourceAnno sp false pages k =
      processPages uuid now sourceAnno sp false pages' k := by
  induction hrel with
  | nil => intro k; rfl
  | @cons p q rest rest' hpq hrest ih =>
      intro k
      obtain ⟨hidx, heq⟩ := hpq
      by_cases hp : p.index = sourceAnno.pageIndex
      · have hcp : (!false && p.index == sourceAnno.pageIndex) = true := by
          simp [hp]
        have hcq : (!false && q.index == sourceAnno.pageIndex) = true := by
          simp [← hidx, hp]
        rw [processPages_cons_skip hcp, processPages_cons_skip hcq]
        exact ih k
      · have heq' := heq hp
        subst heq'
        have hcp : (!false && p.index == sourceAnno.pageIndex) = false := by
          simp [hp]
        rw [processPages_cons_take hcp, processPages_cons_take hcp, ih (k + 1)]

theorem find_isSome_congr {sourceAnno : PdfAnnoObject}
    {pages pages' : List PdfPageObject}
    (hrel : List.Forall₂
      (fun p q => p.index = q.index ∧ (p.index ≠ sourceAnno.pageIndex → p = q))
      pages pages') :
    (pages.find? (fun p => p.index == sourceAnno.pageIndex)).isSome =
      (pages'.find? (fun p => p.index == sourceAnno.pageIndex)).isSome := by
  induction hrel with
  | nil => rfl
  | @cons p q rest rest' hpq hrest ih =>
      obtain ⟨hidx, _⟩ := hpq
      by_cases hp : p.index = sourceAnno.pageIndex
      · have h1 : (p.index == sourceAnno.pageIndex) = true := by simp [hp]
        have h2 : (q.index == sourceAnno.pageIndex) = true := by simp [← hidx, hp]
        simp [List.find?_cons, h1, h2]
      · have h1 : (p.index == sourceAnno.pageIndex) = false := by simp [hp]
        have h2 : (q.index == sourceAnno.pageIndex) = false := by simp [← hidx, hp]
        simp [List.find?_cons, h1, h2, ih]

/-- C8 as stated fails on the code: with `includeSourcePage` set, the
source page is itself a target, so shrinking it changes both the
produced geometry and the clipped-page diagnostics. -/
theorem C8_counterexample :
    wTinyPage0.index = wPage0.index ∧
    wPage0.index = wAnno.pageIndex ∧
    ((generateDuplicateAnnotations wuuid 0 wAnno [wPage0, wPage1] true).toOption.map
        fun r => r.clippedPages) = some [] ∧
    ((generateDuplicateAnnotations wuuid 0 wAnno [wTinyPage0, wPage1] true).toOption.map
        fun r => r.clippedPages) = some [0] ∧
    ((generateDuplicateAnnotations wuuid 0 wAnno [wPage0, wPage1] true).toOption.map
        fun r => r.annotations.map fun a => a.rect) ≠
      ((generateDuplicateAnnotations wuuid 0 wAnno [wTinyPage0, wPage1] true).toOption.map
        fun r => r.annotations.map fun a => a.rect) := by
  refine ⟨rfl, rfl, ?_, ?_, ?_⟩
  · rw [generate_wResInc]; rfl
  · rw [generate_wResIncTiny]; rfl
  · rw [generate_wResInc, generate_wResIncTiny]
    norm_num [wResInc, wResIncTiny, wAnno, Except.toOption, Rect.mk.injEq,
      Position.mk.injEq, Size.mk.injEq]

/-- C8 amended: with `includeSourcePage` false (the default), changing
only the size and rotation of the page carrying the source annotation's
index leaves the whole result unchanged; moreover the shape transform
never depends on its source-page argument. -/
theorem C8_amended (uuid : Nat → String) (now : Nat)
    (sourceAnno : PdfAnnoObject) (pages pages' : List PdfPageObject)
    (hrel : List.Forall₂
      (fun p q => p.index = q.index ∧ (p.index ≠ sourceAnno.pageIndex → p = q))
      pages pages') :
    generateDuplicateAnnotations uuid now sourceAnno pages false =
      generateDuplicateAnnotations uuid now sourceAnno pages' false ∧
    ∀ (a : PdfAnnoObject) (sp sp' tp : PdfPageObject),
      transformAnnoForTargetPage a sp tp = transformAnnoForTargetPage a sp' tp := by
  constructor
  · cases hfp : pages.find? (fun p => p.index == sourceAnno.pageIndex) with
    | none =>
        have hn : pages'.find? (fun p => p.index == sourceAnno.pageIndex) = none := by
          have h := find_isSome_congr hrel
          rw [hfp] at h
          exact Option.not_isSome_iff_eq_none.mp (by simp [← h])
        unfold generateDuplicateAnnotations
        rw [hfp, hn]
    | some sp =>
        have hs : (pages'.find? fun p => p.index == sourceAnno.pageIndex).isSome := by
          have h := find_isSome_congr hrel
          rw [hfp] at h
          simp [← h]
        obtain ⟨sp', hfp'⟩ := Option.isSome_iff_exists.mp hs
        rw [generate_eq_ok hfp, generate_eq_ok hfp']
        rw [processPages_congr uuid now sourceAnno sp hrel 0,
          processPages_sp_irrel uuid now sourceAnno sp sp' false pages' 0]
  · exact fun a sp sp' tp => transformAnno_sp_irrel a sp sp' tp

theorem C8_amended_witness :
    List.Forall₂
      (fun p q => p.index = q.index ∧ (p.index ≠ wAnno.pageIndex → p = q))
      [wPage0, wPage1] [wTinyPage0, wPage1] ∧
    (generateDuplicateAnnotations wuuid 0 wAnno [wPage0, wPage1] false =
      generateDuplicateAnnotations wuuid 0 wAnno [wTinyPage0, wPage1] false ∧
     ∀ (a : PdfAnnoObject) (sp sp' tp : PdfPageObject),
       transformAnnoForTargetPage a sp tp = transformAnnoForTargetPage a sp' tp) :=
  have hrel : List.Forall₂
      (fun p q => p.index = q.index ∧ (p.index ≠ wAnno.pageIndex → p = q))
      [wPage0, wPage1] [wTinyPage0, wPage1] :=
    List.Forall₂.cons (by decide) (List.Forall₂.cons (by decide) List.Forall₂.nil)
  ⟨hrel, C8_amended wuuid 0 wAnno [wPage0, wPage1] [wTinyPage0, wPage1] hrel⟩

/-- C9: every returned annotation copies all passthrough styling fields
(color, stroke color, stroke width, stroke style, opacity, flags, icon)
verbatim from the source annotation. -/
theorem C9_passthrough_fields (uuid : Nat → String) (now : Nat)
    (sourceAnno : PdfAnnoObject) (pages : List PdfPageObject) (inc : Bool)
    (res : DuplicateAnnotationResult)
    (hok : generateDuplicateAnnotations uuid now sourceAnno pages inc =
      Except.ok res) :
    ∀ a ∈ res.annotations, sameStyle a sourceAnno := by
  obtain ⟨sp, hfind, hann, _⟩ := generate_ok_inv hok
  rw [hann]
  intro a ha
  exact (processPages_frame uuid now sourceAnno sp inc pages 0 a ha).2

theorem C9_witness :
    (generateDuplicateAnnotations wuuid 0 wAnno [wPage0, wPage1] false =
      Except.ok wRes01) ∧
    ∀ a ∈ wRes01.annotations, sameStyle a wAnno :=
  ⟨generate_wRes01,
    C9_passthrough_fields wuuid 0 wAnno [wPage0, wPage1] false wRes01 generate_wRes01⟩

/-- C10: with unique page indexes, the clipped-pages list has no
duplicates, is (in order) a sublist of the produced page indexes (which
are themselves duplicate-free, so each entry matches exactly one
annotation), and consists exactly of the indexes of the eligible pages
whose transform reported clipping. -/
theorem C10_clipped_pages_structure (uuid : Nat → String) (now : Nat)
    (sourceAnno : PdfAnnoObject) (pages : List PdfPageObject) (inc : Bool)
    (res : DuplicateAnnotationResult)
    (hnodup : (pages.map fun p => p.index).Nodup)
    (hok : generateDuplicateAnnotations uuid now sourceAnno pages inc =
      Except.ok res) :
    res.clippedPages.Nodup ∧
    res.clippedPages.Sublist (res.annotations.map fun a => a.pageIndex) ∧
    ((res.annotations.map fun a => a.pageIndex).Nodup) ∧
    ∃ sp, pages.find? (fun p => p.index == sourceAnno.pageIndex) = some sp ∧
      res.clippedPages =
        (((eligiblePages sourceAnno inc pages).filter
            fun p => (transformAnnoForTargetPage sourceAnno sp p).2).map
          fun p => p.index) := by
  obtain ⟨sp, hfind, hann, hclip⟩ := generate_ok_inv hok
  have hmap := processPages_map_pageIndex uuid now sourceAnno sp inc pages 0
  have hsnd := processPages_snd uuid now sourceAnno sp inc pages 0
  have heligsub : (eligiblePages sourceAnno inc pages).Sublist pages :=
    List.filter_sublist pages
  have hsubmap : ((eligiblePages sourceAnno inc pages).map fun p => p.index).Sublist
      (pages.map fun p => p.index) :=
    heligsub.map _
  have heligmap_nodup : ((eligiblePages sourceAnno inc pages).map
      fun p => p.index).Nodup :=
    hnodup.sublist hsubmap
  have hfiltsub : (((eligiblePages sourceAnno inc pages).filter
        fun p => (transformAnnoForTargetPage sourceAnno sp p).2).map
      fun p => p.index).Sublist
      ((eligiblePages sourceAnno inc pages).map fun p => p.index) :=
    (List.filter_sublist _).map _
  refine ⟨?_, ?_, ?_, sp, hfind, ?_⟩
  · rw [hclip, hsnd]
    exact heligmap_nodup.sublist hfiltsub
  · rw [hclip, hann, hsnd, hmap]
    exact hfiltsub
  · rw [hann, hmap]
    exact heligmap_nodup
  · rw [hclip, hsnd]

theorem C10_witness :
    (([wPage0, wSmallPage1].map fun p => p.index).Nodup) ∧
    (generateDuplicateAnnotations wuuid 0 wOverflowAnno [wPage0, wSmallPage1] false =
      Except.ok wResClip) ∧
    (wResClip.clippedPages.Nodup ∧
      wResClip.clippedPages.Sublist (wResClip.annotations.map fun a => a.pageIndex) ∧
      ((wResClip.annotations.map fun a => a.pageIndex).Nodup) ∧
      ∃ sp, [wPage0, wSmallPage1].find?
          (fun p => p.index == wOverflowAnno.pageIndex) = some sp ∧
        wResClip.clippedPages =
          (((eligiblePages wOverflowAnno false [wPage0, wSmallPage1]).filter
              fun p => (transformAnnoForTargetPage wOverflowAnno sp p).2).map
            fun p => p.index)) :=
  ⟨by decide, generate_wResClip,
    C10_clipped_pages_structure wuuid 0 wOverflowAnno [wPage0, wSmallPage1] false
      wResClip (by decide) generate_wResClip⟩

end EmbedPdf
